import Mathlib

/-!
Verification of the tcc2-rps-bench benchmark core, shallowly embedded from
the Python sources `src/clients/python/client_requests.py`,
`src/clients/python/client_httpx.py` and `src/orchestrator/run_benchmark.py`.

Latencies, timestamps and derived statistics are modelled as exact rationals
(ℚ); Python `float` values are binary rationals, and for the quantities the
claims mention (floor of `N * p`, `sum / len`, `total / duration`) the doc
comments below note where double rounding coincides with exact arithmetic.
-/

namespace RpsBench

/-- Result of the transport layer for one request attempt: either a response
with a status code, or a raised exception (connection error, timeout, ...).
Embeds the `try`/`except` split of `BenchmarkClient.make_request` in
`client_requests.py` lines 21-33 and `client_httpx.py` lines 17-29. -/
inductive TransportResult where
  | response (status_code : Nat)
  | error
  deriving DecidableEq, Repr

/-- One request attempt as the environment schedules it: `t0` is the
`time.perf_counter()` reading just before send, `t1` the reading when the
outcome (response or exception) is known. -/
structure RequestEvent where
  t0 : ℚ
  t1 : ℚ
  result : TransportResult
  deriving DecidableEq, Repr

/-- Embedding of `BenchmarkClient.make_request` (`client_requests.py` 21-33,
`client_httpx.py` 17-29): on both the response path and the exception path
the latency is `(perf_counter() - start) * 1000` milliseconds; success is
`response.status_code == 200` on the response path and `False` on the
exception path. -/
def make_request (e : RequestEvent) : ℚ × Bool :=
  ((e.t1 - e.t0) * 1000,
    match e.result with
    | .response s => s == 200
    | .error => false)

/-- Modelled from the spec: an HTTP-level success status is one in the 2xx
class. The spec (§4.1, §6) defines request success as "an HTTP-level success
status"; this spec-side predicate is compared against the code's
`status_code == 200` test. -/
def isHttpSuccessStatus (s : Nat) : Bool :=
  200 ≤ s && s < 300

/-- Embedding of `BenchmarkClient.worker` (`client_requests.py` 35-44,
`client_httpx.py` 31-40). The loop `while time.perf_counter() < stop_time`
is modelled by checking each scheduled event's pre-send clock reading `t0`
against `stop_time`; the worker stops at the first event whose check fails
and ignores the rest of the schedule. The accumulator pair is
`(worker_latencies, worker_failures)`: on success the latency is appended,
on failure the counter is incremented. -/
def worker (stop_time : ℚ) : List RequestEvent → List ℚ × Nat → List ℚ × Nat
  | [], acc => acc
  | e :: rest, acc =>
      if e.t0 < stop_time then
        let lr := make_request e
        worker stop_time rest
          (if lr.2 then (acc.1 ++ [lr.1], acc.2) else (acc.1, acc.2 + 1))
      else acc

/-- Embedding of `BenchmarkClient.run` (`client_requests.py` 46-58,
`client_httpx.py` 42-59): all workers race the same `stop_time`; their
results are merged by extending the latency list and summing the failure
counters, starting from the client's current accumulators. -/
def runWorkers (stop_time : ℚ) (schedules : List (List RequestEvent))
    (init : List ℚ × Nat) : List ℚ × Nat :=
  (schedules.map fun evs => worker stop_time evs ([], 0)).foldl
    (fun acc wr => (acc.1 ++ wr.1, acc.2 + wr.2)) init

/-- The merged outcome of one load-generation run, as held on the client
object when `get_metrics` is called: `self.latencies`, `self.failures`,
`self.concurrency`, `self.duration`. -/
structure RunResult where
  latencies : List ℚ
  failures : Nat
  concurrency : Nat
  duration : Nat
  deriving DecidableEq, Repr

/-- The dict returned by `BenchmarkClient.get_metrics`
(`client_requests.py` 70-86, `client_httpx.py` 71-87). -/
structure Metrics where
  library : String
  language : String
  concurrency : Nat
  duration : Nat
  total_requests : Nat
  successful_requests : Nat
  failed_requests : Nat
  error_rate : ℚ
  throughput : ℚ
  latency_avg_ms : ℚ
  latency_p50_ms : ℚ
  latency_p95_ms : ℚ
  latency_p99_ms : ℚ
  latency_min_ms : ℚ
  latency_max_ms : ℚ
  deriving DecidableEq, Repr

/-- Embedding of `int(len(sorted_latencies) * p)` (`client_requests.py`
66-68, `client_httpx.py` 67-69). Python's `int()` truncates toward zero,
which on a non-negative product is the floor. The three factors 0.50, 0.95,
0.99 are doubles within 2⁻⁵⁴ of the decimal values, and the rounding error
of the double multiplication is far below the distance from `N * p` to the
next integer above, so the double computation agrees with the exact floor
taken here. -/
def percentileIdx (n : Nat) (p : ℚ) : Nat :=
  ⌊p * n⌋₊

/-- Embedding of `BenchmarkClient.get_metrics` (`client_requests.py` 60-86,
`client_httpx.py` 61-87). Returns `none` exactly when Python returns `None`
(the `if not self.latencies` guard). List lookups model Python indexing;
a failed lookup (Python `IndexError`) also yields `none`, and the theorems
below show it never fires for non-empty input. `sorted(...)` is modelled by
insertion sort with `≤`, which produces the unique ascending reordering of
a rational list. The `library` string is the only difference between the
two clients' copies of this method and is passed in. -/
def get_metrics (library : String) (r : RunResult) : Option Metrics :=
  if r.latencies.isEmpty then none
  else
    let total_requests : Nat := r.latencies.length + r.failures
    let sorted_latencies := List.insertionSort (· ≤ ·) r.latencies
    let p50_idx := percentileIdx sorted_latencies.length (0.50 : ℚ)
    let p95_idx := percentileIdx sorted_latencies.length (0.95 : ℚ)
    let p99_idx := percentileIdx sorted_latencies.length (0.99 : ℚ)
    match sorted_latencies[p50_idx]?, sorted_latencies[p95_idx]?,
          sorted_latencies[p99_idx]?, sorted_latencies[0]?,
          sorted_latencies.getLast? with
    | some p50, some p95, some p99, some lmin, some lmax =>
        some
          { library := library
            language := "python"
            concurrency := r.concurrency
            duration := r.duration
            total_requests := total_requests
            successful_requests := r.latencies.length
            failed_requests := r.failures
            error_rate :=
              if 0 < total_requests then
                ((r.failures : ℚ) / total_requests) * 100
              else 0
            throughput := (total_requests : ℚ) / r.duration
            latency_avg_ms := r.latencies.sum / r.latencies.length
            latency_p50_ms := p50
            latency_p95_ms := p95
            latency_p99_ms := p99
            latency_min_ms := lmin
            latency_max_ms := lmax }
    | _, _, _, _, _ => none

/-! Resource sampling and the orchestrator (`src/orchestrator/run_benchmark.py`). -/

/-- One poll tick's parsed stats, the dict built by `get_container_stats`
(`run_benchmark.py` 190-195). -/
structure ResourceSample where
  cpu_percent : ℚ
  memory_used_mb : ℚ
  memory_total_mb : ℚ
  memory_percent : ℚ
  deriving DecidableEq, Repr

/-- The per-target averages dict built by `calculate_averages`
(`run_benchmark.py` 252-266). -/
structure ResourceSummary where
  cpu_percent_avg : ℚ
  memory_used_mb_avg : ℚ
  memory_total_mb_avg : ℚ
  memory_percent_avg : ℚ
  deriving DecidableEq, Repr

/-- Embedding of `calculate_averages` (`run_benchmark.py` 252-266): an empty
sample list yields the all-zero dict; otherwise each field is
`sum(...) / len(stats_list)`. The source's `memory_total_mb_avg` line
carries a redundant `if stats_list else 0.0` guard inside the non-empty
branch, mirrored here. -/
def calculate_averages (stats_list : List ResourceSample) : ResourceSummary :=
  if stats_list.isEmpty then
    { cpu_percent_avg := 0
      memory_used_mb_avg := 0
      memory_total_mb_avg := 0
      memory_percent_avg := 0 }
  else
    { cpu_percent_avg :=
        (stats_list.map (·.cpu_percent)).sum / stats_list.length
      memory_used_mb_avg :=
        (stats_list.map (·.memory_used_mb)).sum / stats_list.length
      memory_total_mb_avg :=
        if !stats_list.isEmpty then
          (stats_list.map (·.memory_total_mb)).sum / stats_list.length
        else 0
      memory_percent_avg :=
        (stats_list.map (·.memory_percent)).sum / stats_list.length }

/-- The all-zero summary, as hard-coded in `run_single_test`
(`run_benchmark.py` 355-368) when `stats_data` is empty. -/
def zeroSummary : ResourceSummary :=
  { cpu_percent_avg := 0
    memory_used_mb_avg := 0
    memory_total_mb_avg := 0
    memory_percent_avg := 0 }

/-- The `stats_data` dict as filled by `monitor_containers`
(`run_benchmark.py` 268-269): one summary per monitored target, reduced
from whatever samples were collected (possibly none, when target
resolution never succeeded). -/
def monitorSummaries (client_samples server_samples : List ResourceSample) :
    ResourceSummary × ResourceSummary :=
  (calculate_averages client_samples, calculate_averages server_samples)

/-- The persisted record for one (library, concurrency) trial: the client's
metrics dict extended with the `resource_usage` key
(`run_benchmark.py` 370). -/
structure TestRecord where
  metrics : Metrics
  resource_usage_client : ResourceSummary
  resource_usage_server : ResourceSummary
  deriving DecidableEq, Repr

/-- Embedding of the measured-phase tail of the clients' entry points
(`client_requests.py` 124-137, `client_httpx.py` 127-140): the client
computes `get_metrics()` and writes the `/results/...json` file only under
`if metrics:` — `some` means a file was written with that content, `none`
means no file exists. -/
def clientPersistedMetrics (library : String) (r : RunResult) : Option Metrics :=
  get_metrics library r

/-- Embedding of the result-file update in `run_single_test`
(`run_benchmark.py` 343-379): if the client's result file exists, it is
re-written with `resource_usage` attached, where an empty `stats_data`
(monitor thread abandoned, `none` here) is replaced by the all-zero
structure; if the file does not exist, nothing is persisted. -/
def run_single_test_record (persisted : Option Metrics)
    (stats : Option (ResourceSummary × ResourceSummary)) : Option TestRecord :=
  match persisted with
  | none => none
  | some m =>
      let st := stats.getD (zeroSummary, zeroSummary)
      some
        { metrics := m
          resource_usage_client := st.1
          resource_usage_server := st.2 }

/-- The end-to-end pipeline from the measured run's outcome and the
monitor's summaries to the persisted record: client tail
(`client_requests.py` 124-137) composed with the orchestrator's file
update (`run_benchmark.py` 343-379). -/
def coordinatorRecord (library : String) (r : RunResult)
    (stats : Option (ResourceSummary × ResourceSummary)) : Option TestRecord :=
  run_single_test_record (clientPersistedMetrics library r) stats

/-! Startup configuration (`client_requests.py` 89-92, `client_httpx.py`
90-93). -/

/-- Embedding of `os.getenv(key, default)` over an association-list
environment. -/
def getenv (env : List (String × String)) (key dflt : String) : String :=
  match env.lookup key with
  | some v => v
  | none => dflt

/-- Decimal digit value of a character, `none` for non-digits. -/
def digitVal (c : Char) : Option Nat :=
  if c.isDigit then some (c.toNat - 48) else none

/-- Accumulating decimal parse of a digit list; `none` on a non-digit or
on the empty list. -/
def parseNatDigits : List Char → Nat → Option Nat
  | [], _ => none
  | [c], acc =>
      match digitVal c with
      | some d => some (acc * 10 + d)
      | none => none
  | c :: rest, acc =>
      match digitVal c with
      | some d => parseNatDigits rest (acc * 10 + d)
      | none => none

/-- Embedding of Python's `int(str)` on optionally-sign-prefixed decimal
strings (the only inputs the clients feed it); `none` models the
`ValueError` raised on anything unparsable. -/
def pyInt (s : String) : Option Int :=
  match s.data with
  | '-' :: rest => (parseNatDigits rest 0).map fun n => -(n : Int)
  | l => (parseNatDigits l 0).map fun n => (n : Int)

/-- The four settings both clients read at startup. -/
structure Config where
  server_url : String
  concurrency : Int
  warmup_duration : Int
  test_duration : Int
  deriving DecidableEq, Repr

/-- Embedding of the startup configuration block (`client_requests.py`
89-92, `client_httpx.py` 90-93): each variable falls back to a hard-coded
default when absent, `int(...)` is the only processing of the numeric ones
(`none` models the `ValueError` on an unparsable string), and no further
validation of any kind is performed before the workers are launched. -/
def loadConfig (env : List (String × String)) : Option Config := do
  let server_url := getenv env "SERVER_URL" "http://server:8080"
  let concurrency ← pyInt (getenv env "CONCURRENCY" "8")
  let warmup_duration ← pyInt (getenv env "WARMUP_DURATION" "120")
  let test_duration ← pyInt (getenv env "TEST_DURATION" "180")
  pure
    { server_url := server_url
      concurrency := concurrency
      warmup_duration := warmup_duration
      test_duration := test_duration }

/-! The two clients' session lifetimes across the two-phase sequence.
Session objects are identified by the order of their creation: a fresh
creation consumes the next identifier from a counter. -/

/-- State of `client_requests.BenchmarkClient` (`client_requests.py`
11-19): `__init__` stores url, concurrency, duration, empty accumulators,
and creates one `requests.Session` (with a pool adapter sized to the
concurrency) that lives on the object. -/
structure RequestsClientState where
  url : String
  concurrency : Nat
  duration : Nat
  latencies : List ℚ
  failures : Nat
  session : Nat
  deriving DecidableEq, Repr

/-- Embedding of `client_requests.BenchmarkClient.__init__`
(`client_requests.py` 11-19): the session is created once here and consumes
the next fresh identifier. Returns the new state and the advanced
counter. -/
def RequestsClient.init (url : String) (concurrency duration : Nat)
    (counter : Nat) : RequestsClientState × Nat :=
  ({ url := url
     concurrency := concurrency
     duration := duration
     latencies := []
     failures := 0
     session := counter }, counter + 1)

/-- Embedding of `client_requests.BenchmarkClient.run`
(`client_requests.py` 46-58): merges the workers' results into the
object's accumulators. All requests go through `self.session`, so the
second component reports which session identifier the run used; no session
is created or destroyed. -/
def RequestsClient.run (s : RequestsClientState) (stop_time : ℚ)
    (schedules : List (List RequestEvent)) : RequestsClientState × Nat :=
  let merged := runWorkers stop_time schedules (s.latencies, s.failures)
  ({ s with latencies := merged.1, failures := merged.2 }, s.session)

/-- Embedding of the inter-phase reset (`client_requests.py` 104-106):
`client.latencies = []`, `client.failures = 0`,
`client.duration = test_duration` — nothing else on the object is
touched. -/
def RequestsClient.interPhaseReset (s : RequestsClientState)
    (test_duration : Nat) : RequestsClientState :=
  { s with latencies := [], failures := 0, duration := test_duration }

/-- State of `client_httpx.BenchmarkClient` (`client_httpx.py` 10-15):
`__init__` stores url, concurrency, duration and empty accumulators; it
creates no session object. -/
structure HttpxClientState where
  url : String
  concurrency : Nat
  duration : Nat
  latencies : List ℚ
  failures : Nat
  deriving DecidableEq, Repr

/-- Embedding of `client_httpx.BenchmarkClient.__init__`
(`client_httpx.py` 10-15). -/
def HttpxClient.init (url : String) (concurrency duration : Nat) :
    HttpxClientState :=
  { url := url
    concurrency := concurrency
    duration := duration
    latencies := []
    failures := 0 }

/-- Embedding of `client_httpx.BenchmarkClient.run` (`client_httpx.py`
42-59): each call opens a fresh `httpx.AsyncClient` inside `async with`
(consuming the next identifier from the counter), runs every worker on it,
merges the results, and closes that client when the `async with` block
exits. Returns (new state, session identifier this run used, advanced
counter). -/
def HttpxClient.run (s : HttpxClientState) (stop_time : ℚ)
    (schedules : List (List RequestEvent)) (counter : Nat) :
    HttpxClientState × Nat × Nat :=
  let merged := runWorkers stop_time schedules (s.latencies, s.failures)
  ({ s with latencies := merged.1, failures := merged.2 }, counter, counter + 1)

/-- Embedding of the inter-phase reset in `client_httpx.main`
(`client_httpx.py` 105-107), identical in shape to the requests client's
reset. -/
def HttpxClient.interPhaseReset (s : HttpxClientState) (test_duration : Nat) :
    HttpxClientState :=
  { s with latencies := [], failures := 0, duration := test_duration }

/-- The session identifiers used by the two phases of
`client_requests.__main__` (`client_requests.py` 97-116): init creates the
session, the warmup run and — after the reset — the measured run both use
it. Returns (warmup session, measured session). -/
def requestsTwoPhaseSessions (url : String) (concurrency warmup test : Nat)
    (stopW stopM : ℚ) (schedW schedM : List (List RequestEvent)) : Nat × Nat :=
  let (c0, _) := RequestsClient.init url concurrency warmup 0
  let (c1, warmupSession) := RequestsClient.run c0 stopW schedW
  let c2 := RequestsClient.interPhaseReset c1 test
  let (_, measuredSession) := RequestsClient.run c2 stopM schedM
  (warmupSession, measuredSession)

/-- The session identifiers used by the two phases of `client_httpx.main`
(`client_httpx.py` 98-118): the warmup `run()` opens and closes one
`AsyncClient`, and after the reset the measured `run()` opens another.
Returns (warmup session, measured session). -/
def httpxTwoPhaseSessions (url : String) (concurrency warmup test : Nat)
    (stopW stopM : ℚ) (schedW schedM : List (List RequestEvent)) : Nat × Nat :=
  let c0 := HttpxClient.init url concurrency warmup
  let (c1, warmupSession, ctr1) := HttpxClient.run c0 stopW schedW 0
  let c2 := HttpxClient.interPhaseReset c1 test
  let (_, measuredSession, _) := HttpxClient.run c2 stopM schedM ctr1
  (warmupSession, measuredSession)

/-! Helper lemmas. -/

lemma percentileIdx_p50 (n : Nat) : percentileIdx n (0.50 : ℚ) = n / 2 := by
  unfold percentileIdx
  have h : (0.50 : ℚ) * n = ((1 * n : ℕ) : ℚ) / ((2 : ℕ) : ℚ) := by
    push_cast
    ring_nf
  rw [h, Nat.floor_div_nat, Nat.floor_natCast, one_mul]

lemma percentileIdx_p95 (n : Nat) : percentileIdx n (0.95 : ℚ) = 19 * n / 20 := by
  unfold percentileIdx
  have h : (0.95 : ℚ) * n = ((19 * n : ℕ) : ℚ) / ((20 : ℕ) : ℚ) := by
    push_cast
    ring_nf
  rw [h, Nat.floor_div_nat, Nat.floor_natCast]

lemma percentileIdx_p99 (n : Nat) : percentileIdx n (0.99 : ℚ) = 99 * n / 100 := by
  unfold percentileIdx
  have h : (0.99 : ℚ) * n = ((99 * n : ℕ) : ℚ) / ((100 : ℕ) : ℚ) := by
    push_cast
    ring_nf
  rw [h, Nat.floor_div_nat, Nat.floor_natCast]

lemma percentileIdx_p50_lt {n : Nat} (h : 1 ≤ n) : percentileIdx n (0.50 : ℚ) < n := by
  rw [percentileIdx_p50]
  omega

lemma percentileIdx_p95_lt {n : Nat} (h : 1 ≤ n) : percentileIdx n (0.95 : ℚ) < n := by
  rw [percentileIdx_p95]
  rw [Nat.div_lt_iff_lt_mul (by norm_num : 0 < 20)]
  omega

lemma percentileIdx_p99_lt {n : Nat} (h : 1 ≤ n) : percentileIdx n (0.99 : ℚ) < n := by
  rw [percentileIdx_p99]
  rw [Nat.div_lt_iff_lt_mul (by norm_num : 0 < 100)]
  omega

lemma sortedLatencies_length (r : RunResult) :
    (List.insertionSort (· ≤ ·) r.latencies).length = r.latencies.length :=
  (List.perm_insertionSort _ _).length_eq

/-- For a non-empty latency list, `get_metrics` reduces to an explicit
record: every index is in range, so the `IndexError` branch is dead. -/
lemma get_metrics_of_ne_nil (lib : String) (r : RunResult)
    (h : r.latencies ≠ []) :
    get_metrics lib r = some
      { library := lib
        language := "python"
        concurrency := r.concurrency
        duration := r.duration
        total_requests := r.latencies.length + r.failures
        successful_requests := r.latencies.length
        failed_requests := r.failures
        error_rate :=
          ((r.failures : ℚ) / (r.latencies.length + r.failures : ℕ)) * 100
        throughput := ((r.latencies.length + r.failures : ℕ) : ℚ) / r.duration
        latency_avg_ms := r.latencies.sum / r.latencies.length
        latency_p50_ms :=
          (List.insertionSort (· ≤ ·) r.latencies).getD
            (r.latencies.length / 2) 0
        latency_p95_ms :=
          (List.insertionSort (· ≤ ·) r.latencies).getD
            (19 * r.latencies.length / 20) 0
        latency_p99_ms :=
          (List.insertionSort (· ≤ ·) r.latencies).getD
            (99 * r.latencies.length / 100) 0
        latency_min_ms :=
          (List.insertionSort (· ≤ ·) r.latencies).getD 0 0
        latency_max_ms :=
          (List.insertionSort (· ≤ ·) r.latencies).getD
            (r.latencies.length - 1) 0 } := by
  have hlen := sortedLatencies_length r
  have hpos : 1 ≤ r.latencies.length := List.length_pos.mpr h
  have e50 : percentileIdx (List.insertionSort (· ≤ ·) r.latencies).length
      (0.50 : ℚ) = r.latencies.length / 2 := by rw [hlen, percentileIdx_p50]
  have e95 : percentileIdx (List.insertionSort (· ≤ ·) r.latencies).length
      (0.95 : ℚ) = 19 * r.latencies.length / 20 := by
    rw [hlen, percentileIdx_p95]
  have e99 : percentileIdx (List.insertionSort (· ≤ ·) r.latencies).length
      (0.99 : ℚ) = 99 * r.latencies.length / 100 := by
    rw [hlen, percentileIdx_p99]
  have hb50 : r.latencies.length / 2 <
      (List.insertionSort (· ≤ ·) r.latencies).length := by
    rw [hlen]; omega
  have hb95 : 19 * r.latencies.length / 20 <
      (List.insertionSort (· ≤ ·) r.latencies).length := by
    rw [hlen, Nat.div_lt_iff_lt_mul (by norm_num : 0 < 20)]; omega
  have hb99 : 99 * r.latencies.length / 100 <
      (List.insertionSort (· ≤ ·) r.latencies).length := by
    rw [hlen, Nat.div_lt_iff_lt_mul (by norm_num : 0 < 100)]; omega
  have hb0 : 0 < (List.insertionSort (· ≤ ·) r.latencies).length := by
    rw [hlen]; exact hpos
  have hblast : (List.insertionSort (· ≤ ·) r.latencies).length - 1 <
      (List.insertionSort (· ≤ ·) r.latencies).length := by omega
  have htot : 0 < r.latencies.length + r.failures := by omega
  unfold get_metrics
  rw [if_neg (by simpa [List.isEmpty_iff] using h)]
  dsimp only
  rw [e50, e95, e99]
  rw [List.getElem?_eq_getElem hb50, List.getElem?_eq_getElem hb95,
    List.getElem?_eq_getElem hb99, List.getElem?_eq_getElem hb0,
    List.getLast?_eq_getElem?, List.getElem?_eq_getElem hblast]
  dsimp only
  rw [if_pos htot]
  congr 1
  refine Metrics.mk.injEq .. |>.mpr ?_
  refine ⟨rfl, rfl, rfl, rfl, rfl, rfl, rfl, rfl, rfl, rfl, ?_, ?_, ?_, ?_, ?_⟩ <;>
    simp only [List.getD_eq_getElem?_getD, hlen] <;>
    rw [List.getElem?_eq_getElem (by omega), Option.getD_some]

lemma get_metrics_nil (lib : String) (r : RunResult)
    (h : r.latencies = []) : get_metrics lib r = none := by
  simp [get_metrics, h]

/-- Requests the worker actually issues from a schedule: the prefix of
events whose pre-send clock reading beats the deadline check. -/
def issuedCount (stop_time : ℚ) (evs : List RequestEvent) : Nat :=
  (evs.takeWhile fun e => decide (e.t0 < stop_time)).length

lemma worker_count (stop_time : ℚ) :
    ∀ (evs : List RequestEvent) (acc : List ℚ × Nat),
      (worker stop_time evs acc).1.length + (worker stop_time evs acc).2 =
        acc.1.length + acc.2 + issuedCount stop_time evs := by
  intro evs
  induction evs with
  | nil => intro acc; simp [worker, issuedCount]
  | cons e rest ih =>
      intro acc
      by_cases hc : e.t0 < stop_time
      · by_cases hs : (make_request e).2
        · simp [worker, if_pos hc, hs, issuedCount, ih, hc]
          omega
        · simp [worker, if_pos hc, hs, issuedCount, ih, hc]
          omega
      · simp [worker, if_neg hc, issuedCount, hc]

lemma worker_nonneg (stop_time : ℚ) :
    ∀ (evs : List RequestEvent) (acc : List ℚ × Nat),
      (∀ e ∈ evs, e.t0 ≤ e.t1) → (∀ x ∈ acc.1, (0 : ℚ) ≤ x) →
      ∀ x ∈ (worker stop_time evs acc).1, (0 : ℚ) ≤ x := by
  intro evs
  induction evs with
  | nil => intro acc _ hacc; simpa [worker] using hacc
  | cons e rest ih =>
      intro acc hmono hacc
      by_cases hc : e.t0 < stop_time
      · by_cases hs : (make_request e).2
        · rw [worker, if_pos hc]
          dsimp only
          rw [if_pos hs]
          refine ih _ (fun x hx => hmono x (List.mem_cons_of_mem _ hx)) ?_
          intro x hx
          rcases List.mem_append.mp hx with hx | hx
          · exact hacc x hx
          · have hx0 : x = (make_request e).1 := by simpa using hx
            have h01 : e.t0 ≤ e.t1 := hmono e (List.mem_cons_self _ _)
            have : (0 : ℚ) ≤ (e.t1 - e.t0) * 1000 := by
              have : (0 : ℚ) ≤ e.t1 - e.t0 := by linarith
              positivity
            simpa [hx0, make_request] using this
        · rw [worker, if_pos hc]
          dsimp only
          rw [if_neg hs]
          exact ih _ (fun x hx => hmono x (List.mem_cons_of_mem _ hx)) hacc
      · rw [worker, if_neg hc]
        exact hacc

lemma runWorkers_count (stop_time : ℚ) :
    ∀ (schedules : List (List RequestEvent)) (init : List ℚ × Nat),
      (runWorkers stop_time schedules init).1.length +
          (runWorkers stop_time schedules init).2 =
        init.1.length + init.2 +
          (schedules.map (issuedCount stop_time)).sum := by
  intro schedules
  induction schedules with
  | nil => intro init; simp [runWorkers]
  | cons evs rest ih =>
      intro init
      have hstep :
          runWorkers stop_time (evs :: rest) init =
            runWorkers stop_time rest
              (init.1 ++ (worker stop_time evs ([], 0)).1,
               init.2 + (worker stop_time evs ([], 0)).2) := by
        simp [runWorkers]
      rw [hstep, ih]
      have hw := worker_count stop_time evs ([], 0)
      simp only [List.map_cons, List.sum_cons, List.length_append]
      simp at hw
      omega

lemma runWorkers_nonneg (stop_time : ℚ) :
    ∀ (schedules : List (List RequestEvent)) (init : List ℚ × Nat),
      (∀ evs ∈ schedules, ∀ e ∈ evs, e.t0 ≤ e.t1) →
      (∀ x ∈ init.1, (0 : ℚ) ≤ x) →
      ∀ x ∈ (runWorkers stop_time schedules init).1, (0 : ℚ) ≤ x := by
  intro schedules
  induction schedules with
  | nil => intro init _ hinit; simpa [runWorkers] using hinit
  | cons evs rest ih =>
      intro init hmono hinit
      have hstep :
          runWorkers stop_time (evs :: rest) init =
            runWorkers stop_time rest
              (init.1 ++ (worker stop_time evs ([], 0)).1,
               init.2 + (worker stop_time evs ([], 0)).2) := by
        simp [runWorkers]
      rw [hstep]
      refine ih _ (fun l hl e he => hmono l (List.mem_cons_of_mem _ hl) e he) ?_
      intro x hx
      rcases List.mem_append.mp hx with hx | hx
      · exact hinit x hx
      · exact worker_nonneg stop_time evs ([], 0)
          (fun e he => hmono evs (List.mem_cons_self _ _) e he)
          (by intro y hy; simp at hy) x hx

/-! Claim theorems. -/

/-- C3: `get_metrics` returns no metrics (`none`) if and only if the
successful-latency list is empty, independent of the failure count; for
`latencies=[]`, `failures=100` it returns `none`, while for
`latencies=[5]`, `failures=100` it returns a `Metrics` value with
`total_requests = 101` and `error_rate = 100 * 100 / 101`. -/
theorem claim_C3_none_iff_no_success :
    (∀ lib r, get_metrics lib r = none ↔ r.latencies = []) ∧
    get_metrics "requests"
      { latencies := [], failures := 100, concurrency := 8, duration := 180 } =
      none ∧
    ∃ m, get_metrics "requests"
        { latencies := [5], failures := 100, concurrency := 8, duration := 180 } =
        some m ∧ m.total_requests = 101 ∧ m.error_rate = 10000 / 101 := by
  refine ⟨?_, by rfl, ?_⟩
  · intro lib r
    constructor
    · intro hnone
      by_contra hne
      rw [get_metrics_of_ne_nil lib r hne] at hnone
      exact Option.noConfusion hnone
    · intro he
      simp [get_metrics, he]
  · refine ⟨_, get_metrics_of_ne_nil "requests" _ (by decide), rfl, ?_⟩
    show ((100 : ℚ) / ((([5] : List ℚ).length + 100 : ℕ) : ℚ)) * 100 =
      10000 / 101
    norm_num

/-- C4: for every non-empty latency list of length N, the reported p50,
p95 and p99 are the elements at indices floor(0.50 N), floor(0.95 N) and
floor(0.99 N) of the ascending-sorted latency sequence (no interpolation);
for N = 1 all three percentiles are the single value; min and max are the
first and last elements of the sorted sequence. -/
theorem claim_C4_percentiles_of_sorted (lib : String) (r : RunResult)
    (s : List ℚ) (hne : r.latencies ≠ []) (hperm : s.Perm r.latencies)
    (hsort : s.Sorted (· ≤ ·)) :
    ∃ m, get_metrics lib r = some m ∧
      m.latency_p50_ms = s.getD (s.length / 2) 0 ∧
      m.latency_p95_ms = s.getD (19 * s.length / 20) 0 ∧
      m.latency_p99_ms = s.getD (99 * s.length / 100) 0 ∧
      m.latency_min_ms = s.getD 0 0 ∧
      m.latency_max_ms = s.getD (s.length - 1) 0 ∧
      (∀ x, r.latencies = [x] →
        m.latency_p50_ms = x ∧ m.latency_p95_ms = x ∧ m.latency_p99_ms = x) := by
  have hse : s = List.insertionSort (· ≤ ·) r.latencies :=
    List.eq_of_perm_of_sorted
      (hperm.trans (List.perm_insertionSort _ _).symm) hsort
      (List.sorted_insertionSort _ _)
  subst hse
  have hlen := sortedLatencies_length r
  refine ⟨_, get_metrics_of_ne_nil lib r hne, by rw [hlen], by rw [hlen],
    by rw [hlen], rfl, by rw [hlen], ?_⟩
  intro x hx
  simp [hx, List.insertionSort, List.orderedInsert]

/-- C6 counterexample: the code classifies a 204 response as a failure even
though 204 is an HTTP-level success status, refuting "success=true iff the
response has an HTTP-level success status". -/
theorem claim_C6_counterexample :
    isHttpSuccessStatus 204 = true ∧
    (make_request { t0 := 0, t1 := 1, result := .response 204 }).2 = false := by
  decide

/-- C6 (amended): `make_request` returns success=true iff the response has
status code exactly 200 (any transport error or non-200 status is a
failure), and in every case the returned latency is the elapsed time from
just before send to when the outcome is known, times 1000 (milliseconds) —
failure latencies are recorded, not dropped. -/
theorem claim_C6_success_iff_status_200 (e : RequestEvent) :
    (make_request e).1 = (e.t1 - e.t0) * 1000 ∧
    ((make_request e).2 = true ↔ e.result = .response 200) := by
  refine ⟨rfl, ?_⟩
  cases hr : e.result with
  | response s => simp [make_request, hr]
  | error => simp [make_request, hr]

/-- C7: for every `Metrics` produced, the throughput equals
`total_requests` divided by the nominal configured duration exactly, and
in particular `total_requests = 900` with `duration = 180` yields
throughput 5. -/
theorem claim_C7_throughput_nominal_duration (lib : String) (r : RunResult)
    (m : Metrics) (hm : get_metrics lib r = some m) :
    m.throughput = (m.total_requests : ℚ) / (m.duration : ℚ) ∧
    m.total_requests = r.latencies.length + r.failures ∧
    m.duration = r.duration ∧
    (m.total_requests = 900 → m.duration = 180 → m.throughput = 5) := by
  have hne : r.latencies ≠ [] := by
    intro he
    rw [get_metrics_nil lib r he] at hm
    exact Option.noConfusion hm
  rw [get_metrics_of_ne_nil lib r hne] at hm
  obtain rfl := Option.some.inj hm
  refine ⟨rfl, rfl, rfl, ?_⟩
  intro h900 h180
  show ((r.latencies.length + r.failures : ℕ) : ℚ) / (r.duration : ℚ) = 5
  have h900' : r.latencies.length + r.failures = 900 := h900
  have h180' : r.duration = 180 := h180
  rw [h900', h180']
  norm_num

/-- C9: for every non-empty latency list of length N ≥ 1, the three
percentile indices `int(N * p)` lie in `[0, N-1]`, so the sorted-list
indexing never goes out of range and `get_metrics` never faults on
non-empty input; moreover any value within the floating-point error bound
of `N * 0.99` (relative error well below 2⁻⁵⁰) still floors below N, so the
implicit clamp also survives double rounding. -/
theorem claim_C9_percentile_indices_in_range (N : Nat) (hN : 1 ≤ N) (q : ℚ)
    (hq0 : 0 ≤ q) (hq : q ≤ N * ((0.99 : ℚ) + 1 / 2 ^ 50))
    (lib : String) (r : RunResult) (hr : r.latencies.length = N) :
    percentileIdx N (0.50 : ℚ) < N ∧ percentileIdx N (0.95 : ℚ) < N ∧
    percentileIdx N (0.99 : ℚ) < N ∧ ⌊q⌋₊ < N ∧
    (get_metrics lib r).isSome = true := by
  refine ⟨percentileIdx_p50_lt hN, percentileIdx_p95_lt hN,
    percentileIdx_p99_lt hN, ?_, ?_⟩
  · rw [Nat.floor_lt hq0]
    have hNpos : (0 : ℚ) < N := by
      have : (1 : ℚ) ≤ N := by exact_mod_cast hN
      linarith
    calc q ≤ N * ((0.99 : ℚ) + 1 / 2 ^ 50) := hq
      _ < N * 1 := by
          refine mul_lt_mul_of_pos_left ?_ hNpos
          norm_num
      _ = N := mul_one _
  · have hne : r.latencies ≠ [] := by
      intro he
      rw [he] at hr
      simp at hr
      omega
    rw [get_metrics_of_ne_nil lib r hne]
    rfl

/-- C10: for every sample sequence, `calculate_averages` returns the
arithmetic mean of each of the four fields, and the empty sequence yields
the all-zero summary, never an error; samples with cpu 10 and cpu 20
average to `cpu_percent_avg = 15`. -/
theorem claim_C10_resource_summary_mean (l : List ResourceSample) :
    (l = [] → calculate_averages l = zeroSummary) ∧
    (l ≠ [] →
      (calculate_averages l).cpu_percent_avg * l.length =
          (l.map (·.cpu_percent)).sum ∧
      (calculate_averages l).memory_used_mb_avg * l.length =
          (l.map (·.memory_used_mb)).sum ∧
      (calculate_averages l).memory_total_mb_avg * l.length =
          (l.map (·.memory_total_mb)).sum ∧
      (calculate_averages l).memory_percent_avg * l.length =
          (l.map (·.memory_percent)).sum) ∧
    (calculate_averages
      [{ cpu_percent := 10, memory_used_mb := 0, memory_total_mb := 0,
         memory_percent := 0 },
       { cpu_percent := 20, memory_used_mb := 0, memory_total_mb := 0,
         memory_percent := 0 }]).cpu_percent_avg = 15 := by
  refine ⟨?_, ?_, by norm_num [calculate_averages]⟩
  · intro he
    subst he
    rfl
  · intro hne
    have hlen0 : (l.length : ℚ) ≠ 0 := by
      have := List.length_pos.mpr hne
      exact_mod_cast Nat.pos_iff_ne_zero.mp this
    unfold calculate_averages
    rw [if_neg (by simpa [List.isEmpty_iff] using hne)]
    have hguard : (!l.isEmpty) = true := by
      simp [List.isEmpty_iff, hne]
    dsimp only
    rw [if_pos hguard]
    exact ⟨div_mul_cancel₀ _ hlen0, div_mul_cancel₀ _ hlen0,
      div_mul_cancel₀ _ hlen0, div_mul_cancel₀ _ hlen0⟩

/-- C10 witness: the per-field mean equations at the concrete sample list
[(cpu 10, mem 1/2/3), (cpu 20, mem 3/4/5)], and the all-zero summary of the
empty list. -/
theorem claim_C10_witness :
    (([] : List ResourceSample) = [] ∧ calculate_averages [] = zeroSummary) ∧
    (([{ cpu_percent := 10, memory_used_mb := 1, memory_total_mb := 2,
          memory_percent := 3 },
        { cpu_percent := 20, memory_used_mb := 3, memory_total_mb := 4,
          memory_percent := 5 }] : List ResourceSample) ≠ [] ∧
      ((calculate_averages
          [{ cpu_percent := 10, memory_used_mb := 1, memory_total_mb := 2,
             memory_percent := 3 },
           { cpu_percent := 20, memory_used_mb := 3, memory_total_mb := 4,
             memory_percent := 5 }]).cpu_percent_avg *
          ([{ cpu_percent := 10, memory_used_mb := 1, memory_total_mb := 2,
              memory_percent := 3 },
            { cpu_percent := 20, memory_used_mb := 3, memory_total_mb := 4,
              memory_percent := 5 }] : List ResourceSample).length =
        (([{ cpu_percent := 10, memory_used_mb := 1, memory_total_mb := 2,
             memory_percent := 3 },
           { cpu_percent := 20, memory_used_mb := 3, memory_total_mb := 4,
             memory_percent := 5 }] : List ResourceSample).map
          (·.cpu_percent)).sum ∧
      (calculate_averages
          [{ cpu_percent := 10, memory_used_mb := 1, memory_total_mb := 2,
             memory_percent := 3 },
           { cpu_percent := 20, memory_used_mb := 3, memory_total_mb := 4,
             memory_percent := 5 }]).memory_used_mb_avg *
          ([{ cpu_percent := 10, memory_used_mb := 1, memory_total_mb := 2,
              memory_percent := 3 },
            { cpu_percent := 20, memory_used_mb := 3, memory_total_mb := 4,
              memory_percent := 5 }] : List ResourceSample).length =
        (([{ cpu_percent := 10, memory_used_mb := 1, memory_total_mb := 2,
             memory_percent := 3 },
           { cpu_percent := 20, memory_used_mb := 3, memory_total_mb := 4,
             memory_percent := 5 }] : List ResourceSample).map
          (·.memory_used_mb)).sum ∧
      (calculate_averages
          [{ cpu_percent := 10, memory_used_mb := 1, memory_total_mb := 2,
             memory_percent := 3 },
           { cpu_percent := 20, memory_used_mb := 3, memory_total_mb := 4,
             memory_percent := 5 }]).memory_total_mb_avg *
          ([{ cpu_percent := 10, memory_used_mb := 1, memory_total_mb := 2,
              memory_percent := 3 },
            { cpu_percent := 20, memory_used_mb := 3, memory_total_mb := 4,
              memory_percent := 5 }] : List ResourceSample).length =
        (([{ cpu_percent := 10, memory_used_mb := 1, memory_total_mb := 2,
             memory_percent := 3 },
           { cpu_percent := 20, memory_used_mb := 3, memory_total_mb := 4,
             memory_percent := 5 }] : List ResourceSample).map
          (·.memory_total_mb)).sum ∧
      (calculate_averages
          [{ cpu_percent := 10, memory_used_mb := 1, memory_total_mb := 2,
             memory_percent := 3 },
           { cpu_percent := 20, memory_used_mb := 3, memory_total_mb := 4,
             memory_percent := 5 }]).memory_percent_avg *
          ([{ cpu_percent := 10, memory_used_mb := 1, memory_total_mb := 2,
              memory_percent := 3 },
            { cpu_percent := 20, memory_used_mb := 3, memory_total_mb := 4,
              memory_percent := 5 }] : List ResourceSample).length =
        (([{ cpu_percent := 10, memory_used_mb := 1, memory_total_mb := 2,
             memory_percent := 3 },
           { cpu_percent := 20, memory_used_mb := 3, memory_total_mb := 4,
             memory_percent := 5 }] : List ResourceSample).map
          (·.memory_percent)).sum)) :=
  ⟨⟨rfl, (claim_C10_resource_summary_mean []).1 rfl⟩,
   by decide, (claim_C10_resource_summary_mean _).2.1 (by decide)⟩

/-- C1 counterexample: with 100% failures during the measured phase
(latencies empty, failures 100), the client's `get_metrics` returns `None`,
so under `if metrics:` no result file is written, `run_single_test` finds no
file, and no TestRecord is persisted — refuting "a TestRecord is emitted
even when 100% of requests fail". -/
theorem claim_C1_counterexample :
    coordinatorRecord "requests"
      { latencies := [], failures := 100, concurrency := 8, duration := 180 }
      (some (monitorSummaries [] [])) = none := by
  rfl

/-- C1 (amended): a TestRecord is produced and persisted iff the measured
phase had at least one successful request; in that case, even when
resource-target resolution never succeeds (no samples for either target),
the record is still emitted and carries all-zero resource summaries. When
every request fails, the client writes no result file and the coordinator
persists nothing. -/
theorem claim_C1_record_iff_success (lib : String) (r : RunResult)
    (stats : Option (ResourceSummary × ResourceSummary)) :
    ((coordinatorRecord lib r stats).isSome = true ↔ r.latencies ≠ []) ∧
    (r.latencies ≠ [] →
      ∃ m, coordinatorRecord lib r (some (monitorSummaries [] [])) =
        some { metrics := m
               resource_usage_client := zeroSummary
               resource_usage_server := zeroSummary }) := by
  constructor
  · constructor
    · intro hsome he
      rw [coordinatorRecord, clientPersistedMetrics,
        get_metrics_nil lib r he] at hsome
      exact Bool.noConfusion hsome
    · intro hne
      rw [coordinatorRecord, clientPersistedMetrics,
        get_metrics_of_ne_nil lib r hne]
      rfl
  · intro hne
    rw [coordinatorRecord, clientPersistedMetrics,
      get_metrics_of_ne_nil lib r hne]
    exact ⟨_, rfl⟩

/-- C1 witness: with one success and 100 failures and no resource samples,
a record with all-zero resource summaries is persisted. -/
theorem claim_C1_witness :
    (([5] : List ℚ) ≠ []) ∧
    ∃ m, coordinatorRecord "requests"
        { latencies := [5], failures := 100, concurrency := 8, duration := 180 }
        (some (monitorSummaries [] [])) =
      some { metrics := m
             resource_usage_client := zeroSummary
             resource_usage_server := zeroSummary } :=
  ⟨by decide,
   (claim_C1_record_iff_success "requests"
     { latencies := [5], failures := 100, concurrency := 8, duration := 180 }
     (some (monitorSummaries [] []))).2 (by decide)⟩

/-- C2 (code bug): in the httpx client's two-phase sequence, the warmup
`run()` and the measured `run()` each open their own `AsyncClient` — the
session used by the measured run (identifier 1) is not the one warmed by
the warmup run (identifier 0), contradicting the claim that the
connection layer outlives a single `run()` call; the requests client, by
contrast, does use the same session in both phases, and its inter-phase
reset leaves the session and every other field except latencies, failures
and duration unchanged. -/
theorem claim_C2_httpx_session_not_reused :
    (httpxTwoPhaseSessions "http://server:8080" 8 120 180 120 300
        [[]] [[]]).1 = 0 ∧
    (httpxTwoPhaseSessions "http://server:8080" 8 120 180 120 300
        [[]] [[]]).2 = 1 ∧
    (httpxTwoPhaseSessions "http://server:8080" 8 120 180 120 300
        [[]] [[]]).1 ≠
      (httpxTwoPhaseSessions "http://server:8080" 8 120 180 120 300
        [[]] [[]]).2 ∧
    (requestsTwoPhaseSessions "http://server:8080" 8 120 180 120 300
        [[]] [[]]).1 =
      (requestsTwoPhaseSessions "http://server:8080" 8 120 180 120 300
        [[]] [[]]).2 ∧
    (∀ (s : RequestsClientState) (t : Nat),
      (RequestsClient.interPhaseReset s t).session = s.session ∧
      (RequestsClient.interPhaseReset s t).url = s.url ∧
      (RequestsClient.interPhaseReset s t).concurrency = s.concurrency ∧
      (RequestsClient.interPhaseReset s t).latencies = [] ∧
      (RequestsClient.interPhaseReset s t).failures = 0 ∧
      (RequestsClient.interPhaseReset s t).duration = t) :=
  ⟨rfl, rfl, by decide, rfl, fun s t => ⟨rfl, rfl, rfl, rfl, rfl, rfl⟩⟩

/-- C5 counterexample: with CONCURRENCY=0 and WARMUP_DURATION=-5 in the
environment and no SERVER_URL at all, startup accepts the configuration —
non-positive values are not rejected, and the missing URL silently falls
back to the implicit default — refuting "validated before any workers are
launched ... rejected with a descriptive fatal error ... all required with
no implicit defaults". -/
theorem claim_C5_counterexample :
    loadConfig [("CONCURRENCY", "0"), ("WARMUP_DURATION", "-5")] =
      some { server_url := "http://server:8080", concurrency := 0,
             warmup_duration := -5, test_duration := 180 } := by
  rfl

/-- C5 (amended): startup reads the four settings from environment
variables with implicit defaults (SERVER_URL "http://server:8080",
CONCURRENCY 8, WARMUP_DURATION 120, TEST_DURATION 180); no validation is
performed: a missing variable falls back to its default and non-positive
concurrency or durations are accepted, with no fatal error before workers
are launched. -/
theorem claim_C5_defaults_no_validation :
    (∀ u : String, loadConfig [("SERVER_URL", u)] =
      some { server_url := u, concurrency := 8, warmup_duration := 120,
             test_duration := 180 }) ∧
    loadConfig [] =
      some { server_url := "http://server:8080", concurrency := 8,
             warmup_duration := 120, test_duration := 180 } ∧
    loadConfig [("CONCURRENCY", "0"), ("WARMUP_DURATION", "-5"),
        ("TEST_DURATION", "0")] =
      some { server_url := "http://server:8080", concurrency := 0,
             warmup_duration := -5, test_duration := 0 } :=
  ⟨fun _ => rfl, rfl, rfl⟩

/-- C8: for every run, the number of merged latencies plus the merged
failure count equals the total number of requests issued before the
deadline across all workers (each attempt lands in exactly one
accumulator), and every recorded latency is non-negative whenever the
clock readings are monotone per request. -/
theorem claim_C8_run_accounting (stop_time : ℚ)
    (schedules : List (List RequestEvent))
    (hmono : ∀ evs ∈ schedules, ∀ e ∈ evs, e.t0 ≤ e.t1) :
    (runWorkers stop_time schedules ([], 0)).1.length +
        (runWorkers stop_time schedules ([], 0)).2 =
      (schedules.map (issuedCount stop_time)).sum ∧
    ∀ x ∈ (runWorkers stop_time schedules ([], 0)).1, (0 : ℚ) ≤ x := by
  constructor
  · simpa using runWorkers_count stop_time schedules ([], 0)
  · exact runWorkers_nonneg stop_time schedules ([], 0) hmono
      (by intro x hx; simp at hx)

/-- C8 witness: a two-worker schedule against deadline 10 in which one
worker gets a success in (latency recorded) and one request is scheduled
past the deadline (never issued), while the other worker fails once:
1 latency + 1 failure = 2 issued requests, and the latency is
non-negative. -/
theorem claim_C8_witness :
    (∀ evs ∈ ([[{ t0 := 0, t1 := 1, result := .response 200 },
                 { t0 := 11, t1 := 12, result := .response 200 }],
               [{ t0 := 2, t1 := 3, result := .error }]] :
        List (List RequestEvent)), ∀ e ∈ evs, e.t0 ≤ e.t1) ∧
    ((runWorkers 10 [[{ t0 := 0, t1 := 1, result := .response 200 },
                      { t0 := 11, t1 := 12, result := .response 200 }],
                     [{ t0 := 2, t1 := 3, result := .error }]]
        ([], 0)).1.length +
      (runWorkers 10 [[{ t0 := 0, t1 := 1, result := .response 200 },
                       { t0 := 11, t1 := 12, result := .response 200 }],
                      [{ t0 := 2, t1 := 3, result := .error }]] ([], 0)).2 =
      (([[{ t0 := 0, t1 := 1, result := .response 200 },
          { t0 := 11, t1 := 12, result := .response 200 }],
         [{ t0 := 2, t1 := 3, result := .error }]] :
          List (List RequestEvent)).map (issuedCount 10)).sum ∧
      ∀ x ∈ (runWorkers 10 [[{ t0 := 0, t1 := 1, result := .response 200 },
                             { t0 := 11, t1 := 12, result := .response 200 }],
                            [{ t0 := 2, t1 := 3, result := .error }]]
          ([], 0)).1, (0 : ℚ) ≤ x) :=
  ⟨by decide, claim_C8_run_accounting 10 _ (by decide)⟩

/-- C4 witness: for latencies [3, 1, 2] with sorted sequence [1, 2, 3],
the percentiles are the elements at indices 1, 2, 2 and min/max are the
first and last sorted elements. -/
theorem claim_C4_witness :
    (([3, 1, 2] : List ℚ) ≠ [] ∧ ([1, 2, 3] : List ℚ).Perm [3, 1, 2] ∧
      ([1, 2, 3] : List ℚ).Sorted (· ≤ ·)) ∧
    ∃ m, get_metrics "requests"
        { latencies := [3, 1, 2], failures := 0, concurrency := 8,
          duration := 180 } = some m ∧
      m.latency_p50_ms = ([1, 2, 3] : List ℚ).getD
        (([1, 2, 3] : List ℚ).length / 2) 0 ∧
      m.latency_p95_ms = ([1, 2, 3] : List ℚ).getD
        (19 * ([1, 2, 3] : List ℚ).length / 20) 0 ∧
      m.latency_p99_ms = ([1, 2, 3] : List ℚ).getD
        (99 * ([1, 2, 3] : List ℚ).length / 100) 0 ∧
      m.latency_min_ms = ([1, 2, 3] : List ℚ).getD 0 0 ∧
      m.latency_max_ms = ([1, 2, 3] : List ℚ).getD
        (([1, 2, 3] : List ℚ).length - 1) 0 ∧
      (∀ x, ([3, 1, 2] : List ℚ) = [x] →
        m.latency_p50_ms = x ∧ m.latency_p95_ms = x ∧ m.latency_p99_ms = x) :=
  ⟨⟨by decide, by decide, by decide⟩,
   claim_C4_percentiles_of_sorted "requests"
     { latencies := [3, 1, 2], failures := 0, concurrency := 8,
       duration := 180 } [1, 2, 3] (by decide) (by decide) (by decide)⟩

/-- C7 witness: one success and 899 failures over a nominal 180 s duration
gives total_requests = 900 and throughput exactly 5. -/
theorem claim_C7_witness :
    ∃ m, get_metrics "requests"
        { latencies := [7], failures := 899, concurrency := 8,
          duration := 180 } = some m ∧
      m.throughput = (m.total_requests : ℚ) / (m.duration : ℚ) ∧
      m.throughput = 5 := by
  have hm := get_metrics_of_ne_nil "requests"
    { latencies := [7], failures := 899, concurrency := 8, duration := 180 }
    (by decide)
  have h := claim_C7_throughput_nominal_duration "requests"
    { latencies := [7], failures := 899, concurrency := 8, duration := 180 }
    _ hm
  exact ⟨_, hm, h.1, h.2.2.2 rfl rfl⟩

/-- C9 witness: at N = 1 (and a value within the floating-point bound of
1 * 0.99), all three indices are 0 < 1, the floor stays below 1, and
`get_metrics` succeeds on a singleton latency list. -/
theorem claim_C9_witness :
    (1 ≤ 1 ∧ (0 : ℚ) ≤ 99 / 100 ∧
      (99 / 100 : ℚ) ≤ 1 * ((0.99 : ℚ) + 1 / 2 ^ 50) ∧
      ([(5 : ℚ)] : List ℚ).length = 1) ∧
    (percentileIdx 1 (0.50 : ℚ) < 1 ∧ percentileIdx 1 (0.95 : ℚ) < 1 ∧
      percentileIdx 1 (0.99 : ℚ) < 1 ∧ ⌊(99 / 100 : ℚ)⌋₊ < 1 ∧
      (get_metrics "requests"
        { latencies := [5], failures := 0, concurrency := 1,
          duration := 1 }).isSome = true) :=
  ⟨⟨le_refl 1, by norm_num, by norm_num, rfl⟩,
   claim_C9_percentile_indices_in_range 1 (le_refl 1) (99 / 100)
     (by norm_num) (by norm_num) "requests"
     { latencies := [5], failures := 0, concurrency := 1, duration := 1 }
     rfl⟩

end RpsBench
